import Mathlib

/-!
Shallow embedding of the request-dispatch core of `yuexiaoyun/gateway`
(`src/proxy/proxy.go`): the per-candidate dispatch `doProxy`, the fan-out
coordinator `ReverseProxyHandler`, and the response-merge logic, together
with the filter chain and the rewrite logic.

Conventions of the embedding:
* machine strings are Lean `String`; header collections are association
  lists `List (String × String)` (fasthttp `Header.Del` removes every entry
  with the given name, `CopyTo` resets the destination before copying,
  `Add` appends);
* Go `nil` pointers become `Option`; a Go nil-pointer dereference is
  modelled by the handler returning `none`;
* the external backend transport returns either a response or a transport
  error message (`BackendOutcome`);
* the structured concurrency of the fan-out (one goroutine per candidate,
  `WaitGroup` join, each goroutine mutating only its own `RouteResult`) is
  modelled by dispatching the candidates independently and joining the
  results, which is observationally identical because no data is shared;
* `Release()` calls are recorded as the list of released candidate indices
  in call order.
-/

namespace Proxy

/-- `ErrPrefixRequestCancel` from `proxy.go`: the textual signature of a
caller-cancelled request. -/
def ErrPrefixRequestCancel : String := "request canceled"

/-- `ErrNoServer` from `proxy.go`, modelled by its message string. -/
def ErrNoServer : String := "has no server"

/-- `HeaderContentType` constant from `proxy.go`. -/
def HeaderContentType : String := "Content-Type"

/-- `MergeContentType` constant from `proxy.go`. -/
def MergeContentType : String := "application/json; charset=utf-8"

/-- `MergeRemoveHeaders` constant from `proxy.go`. -/
def MergeRemoveHeaders : List String := ["Content-Length", "Content-Type", "Date"]

/-- A backend server (`model.Server`), reduced to the one field `proxy.go`
reads: its address. -/
structure Server where
  addr : String
deriving DecidableEq

/-- The routing node of a candidate (`model.Node`), reduced to the fields
`proxy.go` reads: the attribution name used as merge key and the URL path
substituted on the outbound request. -/
structure Node where
  attrName : String
  url : String
deriving DecidableEq

/-- A backend HTTP response (fasthttp `Response`), reduced to the parts
`proxy.go` reads: status code, header list and body. -/
structure Response where
  statusCode : Nat
  headers : List (String × String)
  body : String
deriving DecidableEq

/-- An HTTP request (fasthttp `Request`), reduced to the parts the rewrite
logic of `doProxy` touches: host, URI path and URI query string. -/
structure Request where
  host : String
  path : String
  query : String
deriving DecidableEq

/-- Splits a request URI at the first `?` into path and query string,
as fasthttp does when a request URI is assigned. -/
def splitQuery : List Char → List Char × List Char
  | [] => ([], [])
  | c :: cs =>
    if c = '?' then ([], cs)
    else
      let p := splitQuery cs
      (c :: p.1, p.2)

/-- fasthttp `Request.SetRequestURI`: replace the URI (path and query
string) with the parse of the given string.  Scheme and authority parts of
an absolute URI are not modelled; `doProxy` overrides the host explicitly
right after this call. -/
def Request.setRequestURI (r : Request) (s : String) : Request :=
  { r with path := ⟨(splitQuery s.data).1⟩, query := ⟨(splitQuery s.data).2⟩ }

/-- fasthttp `URI.SetPath`: replace only the path component; the query
string is a separate component and is untouched. -/
def Request.setPath (r : Request) (p : String) : Request :=
  { r with path := p }

/-- fasthttp `Request.SetHost`. -/
def Request.setHost (r : Request) (h : String) : Request :=
  { r with host := h }

/-- Character-list version of the byte-wise prefix test of Go
`strings.HasPrefix`. -/
def isPrefixOfChars : List Char → List Char → Bool
  | [], _ => true
  | _ :: _, [] => false
  | p :: ps, c :: cs => p == c && isPrefixOfChars ps cs

/-- Go `strings.HasPrefix s p`: does `s` start with `p`? -/
def strStartsWith (s p : String) : Bool :=
  isPrefixOfChars p.data s.data

/-- Modelled from the spec: `copyRequest` is not under `src/`.  Section 4.1
step 2 says the outbound request is built from the inbound one with method,
headers and body copied, so on this request model it is the identity copy. -/
def copyRequest (r : Request) : Request := r

/-- One resolved backend target (`model.RouteResult`), with the outcome
fields `doProxy` mutates.  `needRewrite` models the value of
`result.NeedRewrite()` and `realPath` the value of
`result.GetRealPath(&ctx.Request)` for the current request; both are
computed by the external resolver (`pkg/model`, outside `src/`) and are
inputs here. -/
structure RouteResult where
  svr : Option Server
  node : Option Node
  needRewrite : Bool
  realPath : String
  merge : Bool
  res : Option Response
  err : Option String
  code : Nat
deriving DecidableEq

/-- The decision a filter takes on one dispatch: allow continuation or stop
the chain with a status code and an error message. -/
inductive FilterResult where
  | next : FilterResult
  | stop (code : Nat) (msg : String) : FilterResult
deriving DecidableEq

/-- A registered filter: its name and the decision it takes in the pre and
post phases of the current dispatch. -/
structure Filter where
  name : String
  pre : FilterResult
  post : FilterResult
deriving DecidableEq

/-- Modelled from the spec: `doPreFilters` and `doPostFilters` are not
under `src/`.  Section 4.2: filters run in registration order and the first
stop wins, yielding `(stoppedFilterName, statusCode, error)`.  The first
component of the result lists the names of the filters that ran (every
filter up to and including the stopping one). -/
def runFilters (phase : Filter → FilterResult) : List Filter → List String × Option (String × Nat × String)
  | [] => ([], none)
  | f :: fs =>
    match phase f with
    | .stop code msg => ([f.name], some (f.name, code, msg))
    | .next =>
      let rest := runFilters phase fs
      (f.name :: rest.1, rest.2)

/-- The pre-filter phase of the chain. -/
def doPreFilters (chain : List Filter) : List String × Option (String × Nat × String) :=
  runFilters Filter.pre chain

/-- The post-success-filter phase of the chain. -/
def doPostFilters (chain : List Filter) : List String × Option (String × Nat × String) :=
  runFilters Filter.post chain

/-- Outcome of the external backend transport
(`p.fastHTTPClient.Do(outreq, svr.Addr)`): a response, or a transport error
with its message (in which case no response object is returned). -/
inductive BackendOutcome where
  | ok (res : Response) : BackendOutcome
  | fail (msg : String) : BackendOutcome
deriving DecidableEq

/-- Observable events of one `doProxy` run: the outbound request it built
(absent on the no-server path), the names of the pre and post filters that
ran, whether the backend transport was invoked, and whether the post-error
filters ran. -/
structure DispatchTrace where
  outreq : Option Request
  preRan : List String
  backendCalled : Bool
  postRan : List String
  postErrRan : Bool
deriving DecidableEq

/-- The outbound-request construction of `doProxy` (lines 165-181): when the
candidate wants a rewrite and the computed replacement is non-empty, the
outbound URI is replaced by it and the host by the server address; when the
candidate wants a rewrite but the replacement is empty, nothing is changed;
when no rewrite is wanted, only the path is substituted from the node (when
a node is present). -/
def buildOutreq (inbound : Request) (r : RouteResult) (svr : Server) : Request :=
  let outreq0 := copyRequest inbound
  if r.needRewrite then
    if r.realPath = "" then outreq0
    else (outreq0.setRequestURI r.realPath).setHost svr.addr
  else
    match r.node with
    | some node => outreq0.setPath node.url
    | none => outreq0

/-- `doProxy` from `proxy.go` (lines 152-237): the full lifecycle of one
candidate.  Mirrors the source branch for branch:
no server → `Err = ErrNoServer`, `Code = 503`;
rewrite wanted and `realPath` non-empty → outbound URI and host replaced;
rewrite wanted but `realPath` empty → outbound request left untouched;
no rewrite → only the path substituted from the node (when present);
pre-filter stop → its status and error recorded, nothing else runs;
transport error → `Res = nil`, `Err` set, `Code = 503`, post-error filters
run unless the message carries the cancellation signature;
backend status ≥ 500 → `Res` kept, `Code` set from the status, post-error
filters run, and `result.Err = err` assigns the nil transport error;
otherwise → post filters run, a stop overriding the successful response. -/
def doProxy (inbound : Request) (chain : List Filter) (backend : BackendOutcome)
    (result : RouteResult) : RouteResult × DispatchTrace :=
  match result.svr with
  | none =>
    ({ result with err := some ErrNoServer, code := 503 },
     ⟨none, [], false, [], false⟩)
  | some svr =>
    let outreq := buildOutreq inbound result svr
    let pre := doPreFilters chain
    match pre.2 with
    | some stopInfo =>
      ({ result with err := some stopInfo.2.2, code := stopInfo.2.1 },
       ⟨some outreq, pre.1, false, [], false⟩)
    | none =>
      match backend with
      | .fail msg =>
        ({ result with res := none, err := some msg, code := 503 },
         ⟨some outreq, pre.1, true, [], !(strStartsWith msg ErrPrefixRequestCancel)⟩)
      | .ok res =>
        if 500 ≤ res.statusCode then
          ({ result with res := some res, err := none, code := res.statusCode },
           ⟨some outreq, pre.1, true, [], true⟩)
        else
          let post := doPostFilters chain
          match post.2 with
          | some stopInfo =>
            ({ result with res := some res, err := some stopInfo.2.2, code := stopInfo.2.1 },
             ⟨some outreq, pre.1, true, post.1, false⟩)
          | none =>
            ({ result with res := some res },
             ⟨some outreq, pre.1, true, post.1, false⟩)

/-- What the coordinator writes to the caller-facing connection: status
code, headers, body. -/
structure CallerResponse where
  statusCode : Nat
  headers : List (String × String)
  body : String
deriving DecidableEq

/-- Result of one `ReverseProxyHandler` run: the caller-facing response and
the indices of the candidates on which `Release()` was called, in call
order. -/
structure HandlerResult where
  response : CallerResponse
  released : List Nat
deriving DecidableEq

/-- One candidate dispatch as the coordinator performs it: in a fan-out
(`merge = true`) the coordinator sets `result.Merge = true` before spawning
the dispatch goroutine. -/
def dispatchOne (inbound : Request) (chain : List Filter) (merge : Bool)
    (c : RouteResult × BackendOutcome) : RouteResult :=
  (doProxy inbound chain c.2 (if merge then { c.1 with merge := true } else c.1)).1

/-- The first result-scan loop of `ReverseProxyHandler` (lines 111-123).
`some early` means the loop returned early with caller outcome `early`
(`early = none` models the nil-pointer panic of `writeResult` on a nil
response); `none` means the loop fell through to the merge section.  On an
error exit only the erroring candidate is released; on the single-candidate
success exit that candidate is released after its status and body are
written. -/
def firstLoop (merge : Bool) (idx : Nat) : List RouteResult → Option (Option HandlerResult)
  | [] => none
  | r :: rs =>
    match r.err with
    | some _ => some (some ⟨⟨r.code, [], ""⟩, [idx]⟩)
    | none =>
      if merge then firstLoop merge (idx + 1) rs
      else
        some (match r.res with
          | none => none
          | some res => some ⟨⟨res.statusCode, [], res.body⟩, [idx]⟩)

/-- fasthttp `Header.Del`: remove every entry with the given name. -/
def delHeader (hs : List (String × String)) (name : String) : List (String × String) :=
  hs.filter (fun kv => kv.1 ≠ name)

/-- The per-candidate header stripping of the merge section: delete each
name in `MergeRemoveHeaders` from the candidate's response headers. -/
def stripMergeHeaders (hs : List (String × String)) : List (String × String) :=
  MergeRemoveHeaders.foldl delHeader hs

/-- The header loop of the merge section (lines 125-130).  For each
candidate, the stripped headers are copied to the caller response with
fasthttp `CopyTo`, which resets the destination first, so each iteration
replaces the accumulated headers.  `none` models the nil-pointer panic on a
nil candidate response. -/
def mergeHeadersLoop : List RouteResult → List (String × String) → Option (List (String × String))
  | [], acc => some acc
  | r :: rs, _ =>
    match r.res with
    | none => none
    | some res => mergeHeadersLoop rs (stripMergeHeaders res.headers)

/-- The body fragments of the merge loop (lines 137-147): one
`"name":body` piece per candidate, in order.  `none` models the nil-pointer
panic on a nil node or nil response. -/
def mergeBodyPieces : List RouteResult → Option (List String)
  | [] => some []
  | r :: rs =>
    match r.node with
    | none => none
    | some node =>
      match r.res with
      | none => none
      | some res =>
        match mergeBodyPieces rs with
        | none => none
        | some rest => some (("\"" ++ node.attrName ++ "\":" ++ res.body) :: rest)

/-- `ReverseProxyHandler` from `proxy.go` (lines 83-150): fan-out, join,
fail-fast scan, and merge.  The route-table `Select` result is the input
`cands`, pairing each resolved candidate with the outcome its backend call
would produce.  Returns `none` when the Go code would panic on a nil
pointer. -/
def ReverseProxyHandler (inbound : Request) (chain : List Filter)
    (cands : List (RouteResult × BackendOutcome)) : Option HandlerResult :=
  if cands.length = 0 then
    some ⟨⟨503, [], ""⟩, []⟩
  else
    let count := cands.length
    let merge := decide (1 < count)
    let results := cands.map (dispatchOne inbound chain merge)
    match firstLoop merge 0 results with
    | some early => early
    | none =>
      match mergeHeadersLoop results [] with
      | none => none
      | some hdrs =>
        match mergeBodyPieces results with
        | none => none
        | some pieces =>
          some ⟨⟨200, hdrs ++ [(HeaderContentType, MergeContentType)],
                 "\x7b" ++ String.intercalate "," pieces ++ "\x7d"⟩,
                List.range count⟩

/-- The response of a backend outcome, when the transport returned one. -/
def backendRes : BackendOutcome → Option Response
  | .ok res => some res
  | .fail _ => none

/-- A candidate input on the all-success fan-out path: no pre-recorded
error, a server and a node present, and a backend response with a status
below 500. -/
def SucceedsInput (c : RouteResult × BackendOutcome) : Prop :=
  c.1.err = none ∧ c.1.svr.isSome ∧ c.1.node.isSome ∧
    (backendRes c.2).isSome ∧ ((backendRes c.2).map Response.statusCode).getD 500 < 500

instance (c : RouteResult × BackendOutcome) : Decidable (SucceedsInput c) := by
  unfold SucceedsInput
  infer_instance

/-- The merge-body fragment contributed by one dispatched candidate. -/
def pieceOfResult (r : RouteResult) : String :=
  "\"" ++ ((r.node.map Node.attrName).getD "") ++ "\":" ++ ((r.res.map Response.body).getD "")

/-- The merge-body fragment of a candidate input, stated on the fan-out
input: key is the node's attribution name, value the backend body verbatim. -/
def mergePiece (c : RouteResult × BackendOutcome) : String :=
  "\"" ++ ((c.1.node.map Node.attrName).getD "") ++ "\":" ++
    (((backendRes c.2).map Response.body).getD "")

/-- The backend response headers of the last candidate of a fan-out. -/
def lastHeaders (cands : List (RouteResult × BackendOutcome)) : List (String × String) :=
  ((cands.getLast?.bind (fun c => backendRes c.2)).map Response.headers).getD []

/-- The filter chain stops at the first stopping filter: everything before
it ran, it ran, and nothing after it ran. -/
theorem runFilters_stop (phase : Filter → FilterResult) (fs1 : List Filter) (f : Filter)
    (fs2 : List Filter) (code : Nat) (msg : String)
    (h1 : ∀ g ∈ fs1, phase g = .next) (hf : phase f = .stop code msg) :
    runFilters phase (fs1 ++ f :: fs2) =
      (fs1.map Filter.name ++ [f.name], some (f.name, code, msg)) := by
  induction fs1 with
  | nil => simp [runFilters, hf]
  | cons g gs ih =>
    have hg : phase g = .next := h1 g (by simp)
    have ih2 := ih (fun x hx => h1 x (by simp [hx]))
    simp [runFilters, hg, ih2]

/-- The trace of every dispatch with a server carries the constructed
outbound request. -/
theorem doProxy_outreq (inbound : Request) (chain : List Filter) (b : BackendOutcome)
    (r : RouteResult) (svr : Server) (hsvr : r.svr = some svr) :
    (doProxy inbound chain b r).2.outreq = some (buildOutreq inbound r svr) := by
  unfold doProxy
  cases hpre : (doPreFilters chain).2 with
  | some s => simp [hsvr, hpre]
  | none =>
    cases b with
    | fail msg => simp [hsvr, hpre]
    | ok res =>
      by_cases h5 : 500 ≤ res.statusCode
      · simp [hsvr, hpre, h5]
      · cases hpost : (doPostFilters chain).2 <;> simp [hsvr, hpre, h5, hpost]

/-- Splitting a request URI that contains no question mark yields the whole
string as path and an empty query string. -/
theorem splitQuery_no_qmark (l : List Char) (h : '?' ∉ l) : splitQuery l = (l, []) := by
  induction l with
  | nil => simp [splitQuery]
  | cons c cs ih =>
    have hc : ¬ c = '?' := fun hcq => h (by simp [hcq])
    have ih2 := ih (fun hm => h (by simp [hm]))
    simp [splitQuery, hc, ih2]

/-- A dispatched candidate whose error field is nil carries a response. -/
theorem doProxy_err_none_res (inbound : Request) (chain : List Filter) (b : BackendOutcome)
    (r : RouteResult) (h : (doProxy inbound chain b r).1.err = none) :
    ((doProxy inbound chain b r).1.res).isSome := by
  unfold doProxy at h ⊢
  cases hsvr : r.svr with
  | none => simp [hsvr] at h
  | some svr =>
    cases hpre : (doPreFilters chain).2 with
    | some s => simp [hsvr, hpre] at h
    | none =>
      cases b with
      | fail msg => simp [hsvr, hpre] at h
      | ok res =>
        by_cases h5 : 500 ≤ res.statusCode
        · simp [hsvr, hpre, h5]
        · cases hpost : (doPostFilters chain).2 with
          | some s => simp [hsvr, hpre, h5, hpost] at h
          | none => simp [hsvr, hpre, h5, hpost]

/-- C9: a candidate with no server is terminated with the `NoServer` error
and status 503, without building an outbound request, running any filter,
or invoking the backend transport. -/
theorem c9_no_server (inbound : Request) (chain : List Filter) (b : BackendOutcome)
    (r : RouteResult) (hsvr : r.svr = none) :
    doProxy inbound chain b r =
      ({ r with err := some ErrNoServer, code := 503 }, ⟨none, [], false, [], false⟩) := by
  unfold doProxy
  rw [hsvr]

theorem c9_no_server_witness :
    doProxy ⟨"caller", "/old", "q=1"⟩ [] (.ok ⟨200, [], "OK"⟩)
        ⟨none, some ⟨"a", "/a"⟩, false, "", false, none, none, 0⟩ =
      (⟨none, some ⟨"a", "/a"⟩, false, "", false, none, some ErrNoServer, 503⟩,
       ⟨none, [], false, [], false⟩) :=
  c9_no_server ⟨"caller", "/old", "q=1"⟩ [] (.ok ⟨200, [], "OK"⟩)
    ⟨none, some ⟨"a", "/a"⟩, false, "", false, none, none, 0⟩ rfl

/-- C8: when a pre-filter stops the chain, its status and error become the
candidate's terminal outcome, the backend transport is never invoked, no
post-success or post-error filter runs, and the pre-filters that ran are
exactly the ones before the stopping filter plus the stopping filter
itself. -/
theorem c8_prefilter_stop (inbound : Request) (b : BackendOutcome) (r : RouteResult)
    (svr : Server) (fs1 fs2 : List Filter) (f : Filter) (code : Nat) (msg : String)
    (hsvr : r.svr = some svr) (h1 : ∀ g ∈ fs1, g.pre = .next)
    (hf : f.pre = .stop code msg) :
    (doProxy inbound (fs1 ++ f :: fs2) b r).1.err = some msg ∧
    (doProxy inbound (fs1 ++ f :: fs2) b r).1.code = code ∧
    (doProxy inbound (fs1 ++ f :: fs2) b r).2.backendCalled = false ∧
    (doProxy inbound (fs1 ++ f :: fs2) b r).2.postRan = [] ∧
    (doProxy inbound (fs1 ++ f :: fs2) b r).2.postErrRan = false ∧
    (doProxy inbound (fs1 ++ f :: fs2) b r).2.preRan = fs1.map Filter.name ++ [f.name] := by
  have hrun : doPreFilters (fs1 ++ f :: fs2) =
      (fs1.map Filter.name ++ [f.name], some (f.name, code, msg)) :=
    runFilters_stop Filter.pre fs1 f fs2 code msg h1 hf
  unfold doProxy
  simp [hsvr, doPreFilters] at hrun ⊢
  simp [hrun]

theorem c8_prefilter_stop_witness :
    (doProxy ⟨"caller", "/old", "q=1"⟩
        [⟨"f0", .next, .next⟩, ⟨"f1", .stop 401 "denied", .next⟩, ⟨"f2", .next, .next⟩]
        (.ok ⟨200, [], "OK"⟩)
        ⟨some ⟨"a:80"⟩, some ⟨"a", "/a"⟩, false, "", false, none, none, 0⟩).1.err =
      some "denied" ∧
    (doProxy ⟨"caller", "/old", "q=1"⟩
        [⟨"f0", .next, .next⟩, ⟨"f1", .stop 401 "denied", .next⟩, ⟨"f2", .next, .next⟩]
        (.ok ⟨200, [], "OK"⟩)
        ⟨some ⟨"a:80"⟩, some ⟨"a", "/a"⟩, false, "", false, none, none, 0⟩).1.code = 401 ∧
    (doProxy ⟨"caller", "/old", "q=1"⟩
        [⟨"f0", .next, .next⟩, ⟨"f1", .stop 401 "denied", .next⟩, ⟨"f2", .next, .next⟩]
        (.ok ⟨200, [], "OK"⟩)
        ⟨some ⟨"a:80"⟩, some ⟨"a", "/a"⟩, false, "", false, none, none, 0⟩).2.backendCalled =
      false ∧
    (doProxy ⟨"caller", "/old", "q=1"⟩
        [⟨"f0", .next, .next⟩, ⟨"f1", .stop 401 "denied", .next⟩, ⟨"f2", .next, .next⟩]
        (.ok ⟨200, [], "OK"⟩)
        ⟨some ⟨"a:80"⟩, some ⟨"a", "/a"⟩, false, "", false, none, none, 0⟩).2.postRan = [] ∧
    (doProxy ⟨"caller", "/old", "q=1"⟩
        [⟨"f0", .next, .next⟩, ⟨"f1", .stop 401 "denied", .next⟩, ⟨"f2", .next, .next⟩]
        (.ok ⟨200, [], "OK"⟩)
        ⟨some ⟨"a:80"⟩, some ⟨"a", "/a"⟩, false, "", false, none, none, 0⟩).2.postErrRan =
      false ∧
    (doProxy ⟨"caller", "/old", "q=1"⟩
        [⟨"f0", .next, .next⟩, ⟨"f1", .stop 401 "denied", .next⟩, ⟨"f2", .next, .next⟩]
        (.ok ⟨200, [], "OK"⟩)
        ⟨some ⟨"a:80"⟩, some ⟨"a", "/a"⟩, false, "", false, none, none, 0⟩).2.preRan =
      ["f0", "f1"] := by
  have h := c8_prefilter_stop ⟨"caller", "/old", "q=1"⟩ (.ok ⟨200, [], "OK"⟩)
    ⟨some ⟨"a:80"⟩, some ⟨"a", "/a"⟩, false, "", false, none, none, 0⟩ ⟨"a:80"⟩
    [⟨"f0", .next, .next⟩] [⟨"f2", .next, .next⟩] ⟨"f1", .stop 401 "denied", .next⟩
    401 "denied" rfl (by decide) rfl
  exact ⟨h.1, h.2.1, h.2.2.1, h.2.2.2.1, h.2.2.2.2.1, h.2.2.2.2.2⟩

/-- C7: on a transport failure the post-error filters run exactly when the
error message does not carry the user-cancellation signature, and the
classification never changes the terminal outcome: the status code is 503
and the error is the transport error either way. -/
theorem c7_cancel_classification (inbound : Request) (chain : List Filter) (msg : String)
    (r : RouteResult) (svr : Server) (hsvr : r.svr = some svr)
    (hpre : (doPreFilters chain).2 = none) :
    (doProxy inbound chain (.fail msg) r).2.postErrRan =
      !(strStartsWith msg ErrPrefixRequestCancel) ∧
    (doProxy inbound chain (.fail msg) r).1.code = 503 ∧
    (doProxy inbound chain (.fail msg) r).1.err = some msg := by
  unfold doProxy
  simp [hsvr, hpre]

theorem c7_cancel_classification_witness :
    (doProxy ⟨"caller", "/old", "q=1"⟩ [] (.fail "request canceled: timeout")
        ⟨some ⟨"a:80"⟩, some ⟨"a", "/a"⟩, false, "", false, none, none, 0⟩).2.postErrRan =
      false ∧
    (doProxy ⟨"caller", "/old", "q=1"⟩ [] (.fail "request canceled: timeout")
        ⟨some ⟨"a:80"⟩, some ⟨"a", "/a"⟩, false, "", false, none, none, 0⟩).1.code = 503 := by
  have h := c7_cancel_classification ⟨"caller", "/old", "q=1"⟩ []
    "request canceled: timeout"
    ⟨some ⟨"a:80"⟩, some ⟨"a", "/a"⟩, false, "", false, none, none, 0⟩ ⟨"a:80"⟩ rfl rfl
  refine ⟨?_, h.2.1⟩
  rw [h.1]
  decide

/-- C6 counterexample: when a post-success filter stops the chain, the
candidate ends with the response field AND the error and status-code fields
populated, so the two terminal outcomes are not exclusive ("never both"
fails). -/
theorem c6_outcome_xor_cex :
    ((doProxy ⟨"caller", "/old", "q=1"⟩ [⟨"f1", .next, .stop 400 "rejected"⟩]
        (.ok ⟨200, [], "OK"⟩)
        ⟨some ⟨"a:80"⟩, some ⟨"a", "/a"⟩, false, "", false, none, none, 0⟩).1.res).isSome =
      true ∧
    (doProxy ⟨"caller", "/old", "q=1"⟩ [⟨"f1", .next, .stop 400 "rejected"⟩]
        (.ok ⟨200, [], "OK"⟩)
        ⟨some ⟨"a:80"⟩, some ⟨"a", "/a"⟩, false, "", false, none, none, 0⟩).1.err =
      some "rejected" ∧
    (doProxy ⟨"caller", "/old", "q=1"⟩ [⟨"f1", .next, .stop 400 "rejected"⟩]
        (.ok ⟨200, [], "OK"⟩)
        ⟨some ⟨"a:80"⟩, some ⟨"a", "/a"⟩, false, "", false, none, none, 0⟩).1.code = 400 := by
  decide

/-- C6 (amended): every return path of the dispatch populates at least one
terminal outcome, and a nil error guarantees a populated response — the
error field alone discriminates the outcome; the outcomes are not mutually
exclusive, since a post-success-filter stop keeps the discarded backend
response set alongside the error, and a backend status of 500 or more
without a transport error sets the status code and response while the error
stays nil. -/
theorem c6_outcome_populated (inbound : Request) (chain : List Filter) (b : BackendOutcome)
    (r : RouteResult) :
    (((doProxy inbound chain b r).1.res).isSome ∨
      ((doProxy inbound chain b r).1.err).isSome) ∧
    ((doProxy inbound chain b r).1.err = none → ((doProxy inbound chain b r).1.res).isSome) := by
  refine ⟨?_, doProxy_err_none_res inbound chain b r⟩
  unfold doProxy
  cases hsvr : r.svr with
  | none => simp [hsvr]
  | some svr =>
    cases hpre : (doPreFilters chain).2 with
    | some s => simp [hsvr, hpre]
    | none =>
      cases b with
      | fail msg => simp [hsvr, hpre]
      | ok res =>
        by_cases h5 : 500 ≤ res.statusCode
        · simp [hsvr, hpre, h5]
        · cases hpost : (doPostFilters chain).2 <;> simp [hsvr, hpre, h5, hpost]

/-- C5 counterexample: with a rewrite requested but an empty computed
replacement, the outbound path is NOT substituted from the node: it stays
the inbound path `/old` and differs from the node path `/new`. -/
theorem c5_empty_rewrite_cex :
    ((doProxy ⟨"caller", "/old", "q=1"⟩ [] (.ok ⟨200, [], "OK"⟩)
        ⟨some ⟨"a:80"⟩, some ⟨"a", "/new"⟩, true, "", false, none, none, 0⟩).2.outreq.map
        Request.path) = some "/old" ∧
    ((doProxy ⟨"caller", "/old", "q=1"⟩ [] (.ok ⟨200, [], "OK"⟩)
        ⟨some ⟨"a:80"⟩, some ⟨"a", "/new"⟩, true, "", false, none, none, 0⟩).2.outreq.map
        Request.path) ≠ some "/new" := by
  decide

/-- C5 (amended): when a rewrite is requested and the computed replacement
is non-empty, the outbound request takes URI and host from the replacement
(host is the server address, and for a replacement without a query part the
path equals the replacement byte for byte); when a rewrite is requested but
the replacement is empty, the outbound request is the unchanged copy of the
inbound one (no path substitution happens); when no rewrite is requested,
only the path is substituted from the node and the inbound query string is
preserved byte-identical. -/
theorem c5_outbound_request_uri (inbound : Request) (chain : List Filter) (b : BackendOutcome)
    (r : RouteResult) (svr : Server) (hsvr : r.svr = some svr) :
    ∃ o, (doProxy inbound chain b r).2.outreq = some o ∧
      (r.needRewrite = true → r.realPath ≠ "" →
        o = ((copyRequest inbound).setRequestURI r.realPath).setHost svr.addr ∧
        o.host = svr.addr ∧
        ('?' ∉ r.realPath.data → o.path = r.realPath ∧ o.query = "")) ∧
      (r.needRewrite = true → r.realPath = "" → o = copyRequest inbound) ∧
      (r.needRewrite = false →
        o.query = inbound.query ∧ o.host = inbound.host ∧
        (∀ node, r.node = some node → o.path = node.url) ∧
        (r.node = none → o = copyRequest inbound)) := by
  refine ⟨buildOutreq inbound r svr, doProxy_outreq inbound chain b r svr hsvr, ?_, ?_, ?_⟩
  · intro hrw hne
    refine ⟨by simp [buildOutreq, hrw, hne], ?_, ?_⟩
    · simp [buildOutreq, hrw, hne, Request.setHost]
    · intro hq
      have hsplit := splitQuery_no_qmark r.realPath.data hq
      constructor
      · simp [buildOutreq, hrw, hne, Request.setHost, Request.setRequestURI, copyRequest, hsplit]
      · simp [buildOutreq, hrw, hne, Request.setHost, Request.setRequestURI, copyRequest, hsplit]
  · intro hrw hemp
    simp [buildOutreq, hrw, hemp]
  · intro hrw
    cases hnode : r.node with
    | none => simp [buildOutreq, hrw, hnode, copyRequest]
    | some node =>
      refine ⟨?_, ?_, ?_, ?_⟩
      · simp [buildOutreq, hrw, hnode, copyRequest, Request.setPath]
      · simp [buildOutreq, hrw, hnode, copyRequest, Request.setPath]
      · intro n hn
        cases hn
        simp [buildOutreq, hrw, hnode, copyRequest, Request.setPath]
      · intro hn
        simp at hn

theorem c5_outbound_request_uri_witness :
    ∃ o, (doProxy ⟨"caller", "/old", "q=1"⟩ [] (.ok ⟨200, [], "OK"⟩)
        ⟨some ⟨"a:80"⟩, some ⟨"a", "/new"⟩, false, "", false, none, none, 0⟩).2.outreq =
          some o ∧
      (false = true → "" ≠ "" →
        o = ((copyRequest ⟨"caller", "/old", "q=1"⟩).setRequestURI "").setHost "a:80" ∧
        o.host = "a:80" ∧
        ('?' ∉ "".data → o.path = "" ∧ o.query = "")) ∧
      (false = true → "" = "" → o = copyRequest ⟨"caller", "/old", "q=1"⟩) ∧
      (false = false →
        o.query = "q=1" ∧ o.host = "caller" ∧
        (∀ node, some (⟨"a", "/new"⟩ : Node) = some node → o.path = node.url) ∧
        (some (⟨"a", "/new"⟩ : Node) = none → o = copyRequest ⟨"caller", "/old", "q=1"⟩)) :=
  c5_outbound_request_uri ⟨"caller", "/old", "q=1"⟩ [] (.ok ⟨200, [], "OK"⟩)
    ⟨some ⟨"a:80"⟩, some ⟨"a", "/new"⟩, false, "", false, none, none, 0⟩ ⟨"a:80"⟩ rfl

/-- C1: when one of two fan-out candidates succeeds and the other returns
status 500 with no transport error, `doProxy` leaves that candidate's error
field nil (line 221 assigns the nil transport error), so the fail-fast scan
never fires: the caller receives status 200 and the merged JSON body
containing the 500 response — not, as the claim states, status 500 with no
merge body. -/
theorem c1_status500_merged_anyway :
    ReverseProxyHandler ⟨"caller", "/old", "q=1"⟩ []
        [(⟨some ⟨"a:80"⟩, some ⟨"a", "/a"⟩, false, "", false, none, none, 0⟩,
          .ok ⟨200, [], "\x7b\"x\":1\x7d"⟩),
         (⟨some ⟨"b:80"⟩, some ⟨"b", "/b"⟩, false, "", false, none, none, 0⟩,
          .ok ⟨500, [], "ERR"⟩)] =
      some ⟨⟨200, [(HeaderContentType, MergeContentType)],
             "\x7b\"a\":\x7b\"x\":1\x7d,\"b\":ERR\x7d"⟩, [0, 1]⟩ ∧
    (dispatchOne ⟨"caller", "/old", "q=1"⟩ [] true
        (⟨some ⟨"b:80"⟩, some ⟨"b", "/b"⟩, false, "", false, none, none, 0⟩,
         .ok ⟨500, [], "ERR"⟩)).err = none ∧
    (dispatchOne ⟨"caller", "/old", "q=1"⟩ [] true
        (⟨some ⟨"b:80"⟩, some ⟨"b", "/b"⟩, false, "", false, none, none, 0⟩,
         .ok ⟨500, [], "ERR"⟩)).code = 500 := by
  decide

/-- C3: on the fail-fast path the coordinator releases only the first
erroring candidate and returns: with candidate 0 succeeding and candidate 1
erroring, the released indices are `[1]` — candidate 0 is never released,
contradicting the claim that every candidate is released exactly once. -/
theorem c3_failfast_release_leak :
    ReverseProxyHandler ⟨"caller", "/old", "q=1"⟩ []
        [(⟨some ⟨"a:80"⟩, some ⟨"a", "/a"⟩, false, "", false, none, none, 0⟩,
          .ok ⟨200, [], "\x7b\"x\":1\x7d"⟩),
         (⟨none, some ⟨"b", "/b"⟩, false, "", false, none, none, 0⟩,
          .ok ⟨200, [], "\x7b\"y\":2\x7d"⟩)] =
      some ⟨⟨503, [], ""⟩, [1]⟩ := by
  decide

/-- In a fan-out, the result scan falls through to the merge section when
no candidate carries an error. -/
theorem firstLoop_none (l : List RouteResult) (idx : Nat)
    (h : ∀ r ∈ l, r.err = none) : firstLoop true idx l = none := by
  induction l generalizing idx with
  | nil => rfl
  | cons r rs ih =>
    have hr : r.err = none := h r (by simp)
    have ih2 := ih (idx + 1) (fun x hx => h x (by simp [hx]))
    simp [firstLoop, hr, ih2]

/-- One step of the merge header loop on a candidate that carries a
response. -/
theorem mergeHeadersLoop_cons (r : RouteResult) (rs : List RouteResult)
    (acc : List (String × String)) (res : Response) (hres : r.res = some res) :
    mergeHeadersLoop (r :: rs) acc = mergeHeadersLoop rs (stripMergeHeaders res.headers) := by
  simp only [mergeHeadersLoop, hres]

/-- When every candidate carries a response, the merge header loop ends
with the stripped headers of the last candidate's response (or the starting
headers when the list is empty). -/
theorem mergeHeadersLoop_some (l : List RouteResult) (acc : List (String × String))
    (h : ∀ r ∈ l, r.res.isSome) :
    mergeHeadersLoop l acc =
      some (((l.getLast?.bind RouteResult.res).map
        (fun res => stripMergeHeaders res.headers)).getD acc) := by
  induction l generalizing acc with
  | nil => simp [mergeHeadersLoop]
  | cons r rs ih =>
    obtain ⟨res, hres⟩ := Option.isSome_iff_exists.mp (h r (by simp))
    cases rs with
    | nil => simp [mergeHeadersLoop, hres]
    | cons r2 rs2 =>
      have ih2 := ih (stripMergeHeaders res.headers) (fun x hx => h x (by simp [hx]))
      have hlast : ((r2 :: rs2).getLast?).isSome := by
        rw [List.getLast?_isSome]
        simp
      obtain ⟨lastr, hlastr⟩ := Option.isSome_iff_exists.mp hlast
      have hlmem : lastr ∈ r2 :: rs2 := List.mem_of_getLast?_eq_some hlastr
      obtain ⟨lres, hlres⟩ := Option.isSome_iff_exists.mp (h lastr (by simp [hlmem]))
      rw [mergeHeadersLoop_cons r (r2 :: rs2) acc res hres, ih2]
      simp [List.getLast?_cons_cons, hlastr, hlres]

/-- When every candidate carries a response, the merge header loop does not
panic. -/
theorem mergeHeadersLoop_isSome (l : List RouteResult) (acc : List (String × String))
    (h : ∀ r ∈ l, r.res.isSome) : (mergeHeadersLoop l acc).isSome := by
  rw [mergeHeadersLoop_some l acc h]
  rfl

/-- When every candidate carries a node and a response, the merge body loop
produces one fragment per candidate, in order. -/
theorem mergeBodyPieces_some (l : List RouteResult)
    (h : ∀ r ∈ l, r.node.isSome ∧ r.res.isSome) :
    mergeBodyPieces l = some (l.map pieceOfResult) := by
  induction l with
  | nil => rfl
  | cons r rs ih =>
    obtain ⟨hn, hr⟩ := h r (by simp)
    obtain ⟨node, hnode⟩ := Option.isSome_iff_exists.mp hn
    obtain ⟨res, hres⟩ := Option.isSome_iff_exists.mp hr
    have ih2 := ih (fun x hx => h x (by simp [hx]))
    simp [mergeBodyPieces, hnode, hres, ih2, pieceOfResult]

/-- A succeeding candidate is dispatched to its backend response with the
error field untouched (nil). -/
theorem dispatchOne_success (inbound : Request) (chain : List Filter)
    (c : RouteResult × BackendOutcome)
    (hpre : (doPreFilters chain).2 = none) (hpost : (doPostFilters chain).2 = none)
    (hc : SucceedsInput c) :
    dispatchOne inbound chain true c = { c.1 with merge := true, res := backendRes c.2 } := by
  obtain ⟨herr, hsvr, hnode, hbres, hstat⟩ := hc
  obtain ⟨svr, hsvr2⟩ := Option.isSome_iff_exists.mp hsvr
  cases hb : c.2 with
  | fail msg =>
    rw [hb] at hbres
    simp [backendRes] at hbres
  | ok res =>
    have h5 : ¬ 500 ≤ res.statusCode := by
      rw [hb] at hstat
      simp [backendRes] at hstat
      omega
    unfold dispatchOne doProxy
    simp [hb, hsvr2, hpre, hpost, h5, backendRes]

/-- Stripping the optional last response's headers commutes with the header
projection used in `lastHeaders`. -/
theorem stripLast_eq (o : Option Response) :
    ((o.map (fun res => stripMergeHeaders res.headers)).getD []) =
      stripMergeHeaders ((o.map Response.headers).getD []) := by
  cases o with
  | none => rfl
  | some res => rfl

/-- Full characterization of the all-success fan-out: status 200, headers
from the last candidate (stripped) plus the merge content-type, the merged
JSON body, and every candidate released in order. -/
theorem handler_all_success (inbound : Request) (chain : List Filter)
    (cands : List (RouteResult × BackendOutcome))
    (hN : 1 < cands.length)
    (hall : ∀ c ∈ cands, SucceedsInput c)
    (hpre : (doPreFilters chain).2 = none)
    (hpost : (doPostFilters chain).2 = none) :
    ReverseProxyHandler inbound chain cands =
      some ⟨⟨200,
             stripMergeHeaders (lastHeaders cands) ++ [(HeaderContentType, MergeContentType)],
             "\x7b" ++ String.intercalate "," (cands.map mergePiece) ++ "\x7d"⟩,
            List.range cands.length⟩ := by
  have hlen : ¬ cands.length = 0 := by omega
  have hmerge : decide (1 < cands.length) = true := decide_eq_true hN
  have hmap : cands.map (dispatchOne inbound chain true) =
      cands.map (fun c => { c.1 with merge := true, res := backendRes c.2 }) :=
    List.map_congr_left (fun c hc => dispatchOne_success inbound chain c hpre hpost (hall c hc))
  have herr : ∀ r ∈ cands.map (fun c => { c.1 with merge := true, res := backendRes c.2 }),
      r.err = none := by
    intro r hr
    obtain ⟨c, hc, hceq⟩ := List.mem_map.mp hr
    rw [← hceq]
    simpa using (hall c hc).1
  have hsome : ∀ r ∈ cands.map (fun c => { c.1 with merge := true, res := backendRes c.2 }),
      r.res.isSome := by
    intro r hr
    obtain ⟨c, hc, hceq⟩ := List.mem_map.mp hr
    rw [← hceq]
    simpa using (hall c hc).2.2.2.1
  have hnodes : ∀ r ∈ cands.map (fun c => { c.1 with merge := true, res := backendRes c.2 }),
      r.node.isSome ∧ r.res.isSome := by
    intro r hr
    obtain ⟨c, hc, hceq⟩ := List.mem_map.mp hr
    rw [← hceq]
    exact ⟨by simpa using (hall c hc).2.2.1, by simpa using (hall c hc).2.2.2.1⟩
  have hbody := mergeBodyPieces_some _ hnodes
  have hhdrs := mergeHeadersLoop_some _ [] hsome
  have hpieces : (cands.map (fun c => { c.1 with merge := true, res := backendRes c.2 })).map
      pieceOfResult = cands.map mergePiece := by
    rw [List.map_map]
    exact List.map_congr_left (fun c hc => rfl)
  have hlastres : (cands.map
        (fun c => { c.1 with merge := true, res := backendRes c.2 })).getLast?.bind
      RouteResult.res = cands.getLast?.bind (fun c => backendRes c.2) := by
    rw [List.getLast?_map]
    cases cands.getLast? with
    | none => rfl
    | some c => rfl
  unfold ReverseProxyHandler
  rw [if_neg hlen]
  simp only [hmerge, hmap]
  rw [firstLoop_none _ 0 herr]
  rw [hhdrs, hbody, hpieces, hlastres, stripLast_eq]
  simp [lastHeaders, List.length_map]

/-- A removed header name never occurs in stripped headers. -/
theorem stripMergeHeaders_no_removed (hs : List (String × String)) (n : String)
    (hn : n ∈ MergeRemoveHeaders) (v : String) : (n, v) ∉ stripMergeHeaders hs := by
  intro hmem
  simp [stripMergeHeaders, MergeRemoveHeaders, delHeader, List.foldl_cons, List.foldl_nil,
    List.mem_filter] at hmem
  simp [MergeRemoveHeaders] at hn
  rcases hn with h | h | h <;> simp [h] at hmem

/-- No content-type entry survives the merge header stripping. -/
theorem stripMergeHeaders_filter_ct (hs : List (String × String)) :
    (stripMergeHeaders hs).filter (fun kv => decide (kv.1 = HeaderContentType)) = [] := by
  rw [List.filter_eq_nil_iff]
  rintro ⟨k, v⟩ hkv hk
  simp only [decide_eq_true_eq] at hk
  subst hk
  exact stripMergeHeaders_no_removed hs HeaderContentType (by decide) v hkv

/-- C2: on an all-success fan-out the caller receives status 200 and a body
that is a JSON object with one member per candidate, in the candidates'
original order, keyed by each candidate's attribution name with the raw
backend body embedded verbatim. -/
theorem c2_merge_all_success_body (inbound : Request) (chain : List Filter)
    (cands : List (RouteResult × BackendOutcome))
    (hN : 1 < cands.length)
    (hall : ∀ c ∈ cands, SucceedsInput c)
    (hpre : (doPreFilters chain).2 = none)
    (hpost : (doPostFilters chain).2 = none) :
    ∃ out, ReverseProxyHandler inbound chain cands = some out ∧
      out.response.statusCode = 200 ∧
      out.response.body =
        "\x7b" ++ String.intercalate "," (cands.map mergePiece) ++ "\x7d" ∧
      (cands.map mergePiece).length = cands.length := by
  refine ⟨_, handler_all_success inbound chain cands hN hall hpre hpost, rfl, rfl, ?_⟩
  simp

theorem c2_merge_all_success_body_witness :
    ∃ out, ReverseProxyHandler ⟨"caller", "/old", "q=1"⟩ []
        [(⟨some ⟨"a:80"⟩, some ⟨"a", "/a"⟩, false, "", false, none, none, 0⟩,
          .ok ⟨200, [], "\x7b\"x\":1\x7d"⟩),
         (⟨some ⟨"b:80"⟩, some ⟨"b", "/b"⟩, false, "", false, none, none, 0⟩,
          .ok ⟨200, [], "\x7b\"y\":2\x7d"⟩)] = some out ∧
      out.response.statusCode = 200 ∧
      out.response.body =
        "\x7b" ++ String.intercalate ","
          ([((⟨some ⟨"a:80"⟩, some ⟨"a", "/a"⟩, false, "", false, none, none, 0⟩ :
                RouteResult),
             (.ok ⟨200, [], "\x7b\"x\":1\x7d"⟩ : BackendOutcome)),
            (⟨some ⟨"b:80"⟩, some ⟨"b", "/b"⟩, false, "", false, none, none, 0⟩,
             .ok ⟨200, [], "\x7b\"y\":2\x7d"⟩)].map mergePiece) ++ "\x7d" ∧
      ([((⟨some ⟨"a:80"⟩, some ⟨"a", "/a"⟩, false, "", false, none, none, 0⟩ :
            RouteResult),
         (.ok ⟨200, [], "\x7b\"x\":1\x7d"⟩ : BackendOutcome)),
        (⟨some ⟨"b:80"⟩, some ⟨"b", "/b"⟩, false, "", false, none, none, 0⟩,
         .ok ⟨200, [], "\x7b\"y\":2\x7d"⟩)].map mergePiece).length = 2 :=
  c2_merge_all_success_body ⟨"caller", "/old", "q=1"⟩ []
    [(⟨some ⟨"a:80"⟩, some ⟨"a", "/a"⟩, false, "", false, none, none, 0⟩,
      .ok ⟨200, [], "\x7b\"x\":1\x7d"⟩),
     (⟨some ⟨"b:80"⟩, some ⟨"b", "/b"⟩, false, "", false, none, none, 0⟩,
      .ok ⟨200, [], "\x7b\"y\":2\x7d"⟩)]
    (by decide) (by decide) rfl rfl

/-- C4 counterexample: fasthttp `CopyTo` resets the destination headers, so
with two succeeding candidates carrying headers `X-A` and `X-B`, the final
response headers hold only the last candidate's `X-B` plus the merge
content-type: the first candidate's `X-A` is absent, so the headers are not
the union of all candidates' headers. -/
theorem c4_headers_union_cex :
    (ReverseProxyHandler ⟨"caller", "/old", "q=1"⟩ []
        [(⟨some ⟨"a:80"⟩, some ⟨"a", "/a"⟩, false, "", false, none, none, 0⟩,
          .ok ⟨200, [("X-A", "1")], "\x7b\"x\":1\x7d"⟩),
         (⟨some ⟨"b:80"⟩, some ⟨"b", "/b"⟩, false, "", false, none, none, 0⟩,
          .ok ⟨200, [("X-B", "2")], "\x7b\"y\":2\x7d"⟩)]).map
      (fun out => out.response.headers) =
      some [("X-B", "2"), (HeaderContentType, MergeContentType)] ∧
    ("X-A", "1") ∉ [("X-B", "2"), (HeaderContentType, MergeContentType)] := by
  decide

/-- C4 (amended): on the all-success fan-out the final headers are the LAST
candidate's backend headers with content-length, content-type and date
removed — each candidate's headers are stripped in turn, but each copy
replaces the previously accumulated headers, so earlier candidates'
headers do not survive — followed by exactly one content-type header whose
value is the merge constant, and no stripped name other than the forced
content-type occurs in the final headers. -/
theorem c4_last_candidate_headers (inbound : Request) (chain : List Filter)
    (cands : List (RouteResult × BackendOutcome))
    (hN : 1 < cands.length)
    (hall : ∀ c ∈ cands, SucceedsInput c)
    (hpre : (doPreFilters chain).2 = none)
    (hpost : (doPostFilters chain).2 = none) :
    ∃ out, ReverseProxyHandler inbound chain cands = some out ∧
      out.response.headers =
        stripMergeHeaders (lastHeaders cands) ++ [(HeaderContentType, MergeContentType)] ∧
      out.response.headers.filter (fun kv => decide (kv.1 = HeaderContentType)) =
        [(HeaderContentType, MergeContentType)] ∧
      (∀ n ∈ MergeRemoveHeaders, n ≠ HeaderContentType →
        ∀ v, (n, v) ∉ out.response.headers) := by
  refine ⟨_, handler_all_success inbound chain cands hN hall hpre hpost, rfl, ?_, ?_⟩
  · rw [List.filter_append, stripMergeHeaders_filter_ct]
    rfl
  · intro n hn hnct v hmem
    rcases List.mem_append.mp hmem with hmem1 | hmem2
    · exact stripMergeHeaders_no_removed (lastHeaders cands) n hn v hmem1
    · simp at hmem2
      exact hnct hmem2.1

theorem c4_last_candidate_headers_witness :
    ∃ out, ReverseProxyHandler ⟨"caller", "/old", "q=1"⟩ []
        [(⟨some ⟨"a:80"⟩, some ⟨"a", "/a"⟩, false, "", false, none, none, 0⟩,
          .ok ⟨200, [("X-A", "1")], "\x7b\"x\":1\x7d"⟩),
         (⟨some ⟨"b:80"⟩, some ⟨"b", "/b"⟩, false, "", false, none, none, 0⟩,
          .ok ⟨200, [("X-B", "2"), ("Date", "d")], "\x7b\"y\":2\x7d"⟩)] = some out ∧
      out.response.headers =
        stripMergeHeaders (lastHeaders
          [((⟨some ⟨"a:80"⟩, some ⟨"a", "/a"⟩, false, "", false, none, none, 0⟩ :
                RouteResult),
            (.ok ⟨200, [("X-A", "1")], "\x7b\"x\":1\x7d"⟩ : BackendOutcome)),
           (⟨some ⟨"b:80"⟩, some ⟨"b", "/b"⟩, false, "", false, none, none, 0⟩,
            .ok ⟨200, [("X-B", "2"), ("Date", "d")], "\x7b\"y\":2\x7d"⟩)]) ++
          [(HeaderContentType, MergeContentType)] ∧
      out.response.headers.filter (fun kv => decide (kv.1 = HeaderContentType)) =
        [(HeaderContentType, MergeContentType)] ∧
      (∀ n ∈ MergeRemoveHeaders, n ≠ HeaderContentType →
        ∀ v, (n, v) ∉ out.response.headers) :=
  c4_last_candidate_headers ⟨"caller", "/old", "q=1"⟩ []
    [(⟨some ⟨"a:80"⟩, some ⟨"a", "/a"⟩, false, "", false, none, none, 0⟩,
      .ok ⟨200, [("X-A", "1")], "\x7b\"x\":1\x7d"⟩),
     (⟨some ⟨"b:80"⟩, some ⟨"b", "/b"⟩, false, "", false, none, none, 0⟩,
      .ok ⟨200, [("X-B", "2"), ("Date", "d")], "\x7b\"y\":2\x7d"⟩)]
    (by decide) (by decide) rfl rfl

/-- C10: after a dispatch, a nil error field implies a present response;
consequently, when the coordinator has observed no candidate error on a
fan-out, every candidate's response is present and the merge header loop —
whose dereferences are exactly those of the merge section — does not hit a
nil response. -/
theorem c10_err_none_res_some (inbound : Request) (chain : List Filter)
    (cands : List (RouteResult × BackendOutcome)) :
    (∀ c ∈ cands, (dispatchOne inbound chain true c).err = none →
      ((dispatchOne inbound chain true c).res).isSome) ∧
    ((∀ c ∈ cands, (dispatchOne inbound chain true c).err = none) →
      ∀ acc, (mergeHeadersLoop (cands.map (dispatchOne inbound chain true)) acc).isSome ∧
        ∀ r ∈ cands.map (dispatchOne inbound chain true), r.res.isSome) := by
  constructor
  · intro c hc herr
    exact doProxy_err_none_res inbound chain c.2 _ herr
  · intro hall acc
    have hsome : ∀ r ∈ cands.map (dispatchOne inbound chain true), r.res.isSome := by
      intro r hr
      obtain ⟨c, hc, hceq⟩ := List.mem_map.mp hr
      rw [← hceq]
      exact doProxy_err_none_res inbound chain c.2 _ (hall c hc)
    exact ⟨mergeHeadersLoop_isSome _ acc hsome, hsome⟩

theorem c10_err_none_res_some_witness :
    (mergeHeadersLoop
      ([((⟨some ⟨"a:80"⟩, some ⟨"a", "/a"⟩, false, "", false, none, none, 0⟩ : RouteResult),
         (.ok ⟨200, [], "OK"⟩ : BackendOutcome))].map
        (dispatchOne ⟨"caller", "/old", "q=1"⟩ [] true)) []).isSome := by
  have h := (c10_err_none_res_some ⟨"caller", "/old", "q=1"⟩ []
    [(⟨some ⟨"a:80"⟩, some ⟨"a", "/a"⟩, false, "", false, none, none, 0⟩,
      .ok ⟨200, [], "OK"⟩)]).2 (by decide) []
  exact h.1

end Proxy
